import Mathlib

/-!
Shallow embedding of the motion-estimation core of `src/main.py`
(`MotionOverlay` plus the UDP quantization step of `UdpServerThread`).

Numbers are modelled as exact rationals (`ℚ`).  The only transcendental
operation of the source, `math.degrees(math.atan2(x, y))`, is abstracted as
an explicit function parameter `a2d : ℚ → ℚ → ℚ`; every theorem that does
not depend on its value quantifies over it, and concrete evaluations use a
stand-in that agrees with the real function at the inputs actually used.
-/

set_option autoImplicit false

namespace MotionSolver

/-- One decoded sensor sample, the six floats emitted by
`UdpServerThread.data_received` in the order `(gx, gy, gz, ax, ay, az)`. -/
structure Sample where
  gx : ℚ
  gy : ℚ
  gz : ℚ
  ax : ℚ
  ay : ℚ
  az : ℚ
deriving DecidableEq, Repr

/-- The mutable state of `MotionOverlay` that the sensing/physics pipeline
reads or writes (window geometry and Qt objects are rendering-only and
omitted).  `gyro_sensitivity` models the module-level global
`GYRO_SENSITIVITY`, which `set_gyro_sensitivity` mutates and
`update_physics` reads. -/
structure State where
  pos_x : ℚ
  pos_y : ℚ
  rotation_angle : ℚ
  scale_factor : ℚ
  current_opacity : ℚ
  target_opacity : ℚ
  is_calibrating : Bool
  calib_data : List Sample
  bias_gy : ℚ
  running_bias_ax : ℚ
  running_bias_ay : ℚ
  running_bias_az : ℚ
  bias_angle : ℚ
  buf_ax : List ℚ
  buf_ay : List ℚ
  buf_az : List ℚ
  buf_gy : List ℚ
  f_ax : ℚ
  f_ay : ℚ
  f_az : ℚ
  f_gy : ℚ
  gyro_sensitivity : ℚ
deriving DecidableEq, Repr

/-- Module constant `ACCEL_SENSITIVITY = 150.0`. -/
def ACCEL_SENSITIVITY : ℚ := 150

/-- Module constant `ZOOM_SENSITIVITY = 0.5`. -/
def ZOOM_SENSITIVITY : ℚ := 1/2

/-- Field `self.window_size = 6`. -/
def window_size : Nat := 6

/-- Local constant `adaptation_rate = 0.02` of `update_physics`. -/
def adaptation_rate : ℚ := 2/100

/-- The state built by `MotionOverlay.__init__` (default
`GYRO_SENSITIVITY = 40.0`, `running_bias_ay = 9.8`). -/
def initState : State where
  pos_x := 0
  pos_y := 0
  rotation_angle := 0
  scale_factor := 1
  current_opacity := 0
  target_opacity := 0
  is_calibrating := true
  calib_data := []
  bias_gy := 0
  running_bias_ax := 0
  running_bias_ay := 49/5
  running_bias_az := 0
  bias_angle := 0
  buf_ax := []
  buf_ay := []
  buf_az := []
  buf_gy := []
  f_ax := 0
  f_ay := 0
  f_az := 0
  f_gy := 0
  gyro_sensitivity := 40

/-- Model of `deque(maxlen=window_size).append(v)`: append on the right,
evicting the oldest (leftmost) element when the deque is full. -/
def dpush (buf : List ℚ) (v : ℚ) : List ℚ :=
  if buf.length < window_size then buf ++ [v] else buf.drop 1 ++ [v]

/-- Mean of one column of the calibration accumulator
(`sum(col) / len(col)` over `zip(*self.calib_data)`). -/
def colMean (cd : List Sample) (f : Sample → ℚ) : ℚ :=
  (cd.map f).sum / (cd.length : ℚ)

/-- Method `MotionOverlay.on_sensor_data`: while calibrating, append to
`calib_data` and finalize once more than 30 samples accumulated; otherwise
push into the moving-average buffers and recompute the filtered values when
the window is full. -/
def on_sensor_data (a2d : ℚ → ℚ → ℚ) (s : State) (m : Sample) : State :=
  if s.is_calibrating then
    let cd := s.calib_data ++ [m]
    if cd.length > 30 then
      { s with
        calib_data := cd
        bias_gy := colMean cd Sample.gy
        running_bias_ax := colMean cd Sample.ax
        running_bias_ay := colMean cd Sample.ay
        running_bias_az := colMean cd Sample.az
        bias_angle := a2d (colMean cd Sample.ax) (colMean cd Sample.ay)
        is_calibrating := false }
    else
      { s with calib_data := cd }
  else
    let bax := dpush s.buf_ax m.ax
    let bay := dpush s.buf_ay m.ay
    let baz := dpush s.buf_az m.az
    let bgy := dpush s.buf_gy m.gy
    if bax.length ≥ window_size then
      { s with
        buf_ax := bax, buf_ay := bay, buf_az := baz, buf_gy := bgy
        f_ax := bax.sum / (bax.length : ℚ)
        f_ay := bay.sum / (bay.length : ℚ)
        f_az := baz.sum / (baz.length : ℚ)
        f_gy := bgy.sum / (bgy.length : ℚ) }
    else
      { s with buf_ax := bax, buf_ay := bay, buf_az := baz, buf_gy := bgy }

/-- Dead-zone step of `update_physics`: `if abs(d) < th: d = 0.0`. -/
def deadzone (th d : ℚ) : ℚ :=
  if |d| < th then 0 else d

/-- Running-bias step of `update_physics`:
`bias * (1 - adaptation_rate) + filtered * adaptation_rate`. -/
def tickRB (bias f : ℚ) : ℚ :=
  bias * (1 - adaptation_rate) + f * adaptation_rate

/-- Local `gyro_y` of `update_physics`: the dead-zoned gyro diff against
the fixed bias. -/
def tickGyroY (s : State) : ℚ :=
  deadzone (8/100) (s.f_gy - s.bias_gy)

/-- Local `diff_ay` of `update_physics`: the dead-zoned vertical diff
against the (already updated) running bias. -/
def tickDiffAy (s : State) : ℚ :=
  deadzone (1/10) (s.f_ay - tickRB s.running_bias_ay s.f_ay)

/-- Local `angle_diff` of `update_physics`: the dead-zoned roll-angle diff
against the fixed `bias_angle`. -/
def tickAngleDiff (a2d : ℚ → ℚ → ℚ) (s : State) : ℚ :=
  deadzone 1 (a2d s.f_ax s.f_ay - s.bias_angle)

/-- Local `diff_az` of `update_physics`: the dead-zoned scale-axis diff
against the (already updated) running bias. -/
def tickDiffAz (s : State) : ℚ :=
  deadzone (1/10) (s.f_az - tickRB s.running_bias_az s.f_az)

/-- Local `target_scale` of `update_physics`, after the `[0.5, 3.0]`
clamp. -/
def tickTargetScale (s : State) : ℚ :=
  max (1/2) (min 3 (1 + tickDiffAz s * ZOOM_SENSITIVITY))

/-- Local `motion` of `update_physics`: the aggregate motion magnitude. -/
def tickMotion (a2d : ℚ → ℚ → ℚ) (s : State) : ℚ :=
  |tickGyroY s| + |tickDiffAy s| + |tickDiffAz s * 2| + |tickAngleDiff a2d s / 10|

/-- The `target_opacity` computed by `update_physics`. -/
def tickTargetOpacity (a2d : ℚ → ℚ → ℚ) (s : State) : ℚ :=
  if tickMotion a2d s > 15/100 then
    min 1 ((tickMotion a2d s - 15/100) / (8/10)) + 2/10
  else 0

/-- Method `MotionOverlay.update_physics`: one 16 ms physics tick.
Early-returns while calibrating; otherwise updates the running biases,
integrates the gyro diff into `pos_x`, direct-maps the accel diffs to
`pos_y` and the scale target, amplifies the tilt angle, and smooths
opacity. -/
def update_physics (a2d : ℚ → ℚ → ℚ) (s : State) : State :=
  if s.is_calibrating then s else
    { s with
      running_bias_ax := tickRB s.running_bias_ax s.f_ax
      running_bias_ay := tickRB s.running_bias_ay s.f_ay
      running_bias_az := tickRB s.running_bias_az s.f_az
      pos_x := s.pos_x + tickGyroY s * s.gyro_sensitivity
      pos_y := tickDiffAy s * ACCEL_SENSITIVITY
      rotation_angle := tickAngleDiff a2d s * (12/10)
      scale_factor := s.scale_factor + (tickTargetScale s - s.scale_factor) * (1/10)
      target_opacity := tickTargetOpacity a2d s
      current_opacity :=
        s.current_opacity + (tickTargetOpacity a2d s - s.current_opacity) * (1/10) }

/-- Method `MotionOverlay.start_calibration`: clear the accumulator and
re-enter the calibrating state (the trailing `self.update()` only
schedules a repaint). -/
def start_calibration (s : State) : State :=
  { s with calib_data := [], is_calibrating := true }

/-- Method `MotionOverlay.set_gyro_sensitivity`:
`GYRO_SENSITIVITY = value * 10.0`. -/
def set_gyro_sensitivity (s : State) (value : ℚ) : State :=
  { s with gyro_sensitivity := value * 10 }

/-- An externally observable event of the pipeline: a decoded sensor
sample, a physics tick, the tray-menu recalibration command, or a
sensitivity-preset selection. -/
inductive Event where
  | sample (m : Sample)
  | tick
  | recalibrate
  | setSens (v : ℚ)
deriving DecidableEq, Repr

/-- Apply one event to the state. -/
def step (a2d : ℚ → ℚ → ℚ) (s : State) : Event → State
  | .sample m => on_sensor_data a2d s m
  | .tick => update_physics a2d s
  | .recalibrate => start_calibration s
  | .setSens v => set_gyro_sensitivity s v

/-- Run the pipeline from the freshly constructed overlay through a
sequence of events. -/
def run (a2d : ℚ → ℚ → ℚ) (evts : List Event) : State :=
  evts.foldl (step a2d) initState

/-- Concrete stand-in for `degrees(atan2(x, y))`, used only for evaluations
whose inputs are of the form `(0, y)` with `y ≥ 0`, where the real function
is exactly `0`. -/
def atan2deg0 : ℚ → ℚ → ℚ := fun _ _ => 0

/-- A sample with every axis zero. -/
def zeroSample : Sample := ⟨0, 0, 0, 0, 0, 0⟩

/-- A sample with a large lateral gyro reading (`gy = 100`). -/
def gy100Sample : Sample := ⟨0, 100, 0, 0, 0, 0⟩

/-- A sample with only a vertical accelerometer reading (`ay = 5`). -/
def ay5Sample : Sample := ⟨0, 0, 0, 0, 5, 0⟩

/-- Calibration sample of end-to-end scenario 1: at rest with gravity on
the Y axis (`gy = 0`, `ay = 9.8`). -/
def calibSample98 : Sample := ⟨0, 0, 0, 0, 49/5, 0⟩

/-- Motion sample of end-to-end scenario 1: a steady lateral rotation
(`gy = 5.0`, all else as calibrated). -/
def gy5Sample : Sample := ⟨0, 5, 0, 0, 49/5, 0⟩

/-- Event sequence driving the opacity past `1.0`: calibrate on 31 silent
samples, warm the filter window with six `gy = 100` samples, then run 18
physics ticks with the target opacity pinned at its maximum `1.2`. -/
def opacityOverflowEvents : List Event :=
  List.replicate 31 (Event.sample zeroSample) ++
    List.replicate 6 (Event.sample gy100Sample) ++
    List.replicate 18 Event.tick

/-- Event sequence exhibiting the filter cold start: calibrate on 31
silent samples, then deliver a single `ay = 5` sample, leaving the window
non-full while the filtered value still holds its initial `0`. -/
def coldStartEvents : List Event :=
  List.replicate 31 (Event.sample zeroSample) ++ [Event.sample ay5Sample]

/-- Event sequence that fills the `ay` window with six `ay = 5` samples
after calibrating on 31 silent samples. -/
def warmEvents : List Event :=
  List.replicate 31 (Event.sample zeroSample) ++
    List.replicate 6 (Event.sample ay5Sample)

/-- Event sequence of end-to-end scenario 1: calibrate on 31 rest samples,
then warm the filter window with six `gy = 5.0` samples. -/
def scenario1Events : List Event :=
  List.replicate 31 (Event.sample calibSample98) ++
    List.replicate 6 (Event.sample gy5Sample)

/-- A quiescent post-calibration state: the freshly constructed overlay
with calibration already finished and the vertical running bias settled at
the (zero) filtered value. -/
def activeState : State :=
  { initState with is_calibrating := false, running_bias_ay := 0 }

/-- Minimum of the values held in a filter window (`0` for an empty
window). -/
def listMin : List ℚ → ℚ
  | [] => 0
  | x :: xs => xs.foldl min x

/-- Maximum of the values held in a filter window (`0` for an empty
window). -/
def listMax : List ℚ → ℚ
  | [] => 0
  | x :: xs => xs.foldl max x

/-- Statement vocabulary for the filter-range property: once the window is
full, the filtered value lies within the range of the held values. -/
def WindowOk (buf : List ℚ) (f : ℚ) : Prop :=
  window_size ≤ buf.length → listMin buf ≤ f ∧ f ≤ listMax buf

/-- Perfect rest: on the current state every per-axis diff computed by
`update_physics` is zero — the filtered gyro sits on its fixed bias, the
vertical and scale filtered values sit on their running biases, and the
roll angle sits on the calibrated reference angle. -/
def AtRest (a2d : ℚ → ℚ → ℚ) (s : State) : Prop :=
  s.f_gy = s.bias_gy ∧ s.f_ay = s.running_bias_ay ∧
    s.f_az = s.running_bias_az ∧ a2d s.f_ax s.f_ay = s.bias_angle

/-! ### Ingestion model with non-finite values (for the NaN-policy claim)

The UDP listener decodes JSON whose numeric fields may be the IEEE
non-finite values that Python's `json.loads` accepts (`NaN`, `Infinity`,
`-Infinity`).  `PFloat` models a Python float as either one of those or an
exact finite rational. -/

/-- A Python float at the ingestion boundary: NaN, one of the signed
infinities, or a finite value (idealized as an exact rational). -/
inductive PFloat where
  | nan : PFloat
  | inf : PFloat
  | ninf : PFloat
  | fin : ℚ → PFloat
deriving DecidableEq, Repr

/-- Whether a Python float is finite. -/
def PFloat.isFinite : PFloat → Bool
  | .fin _ => true
  | _ => false

/-- Nearest integer with ties to even, Python's rounding rule. -/
def roundHalfEven (x : ℚ) : ℤ :=
  if x - ⌊x⌋ < 1/2 then ⌊x⌋
  else if 1/2 < x - ⌊x⌋ then ⌊x⌋ + 1
  else if ⌊x⌋ % 2 = 0 then ⌊x⌋ else ⌊x⌋ + 1

/-- Finite case of Python's `round(val, 2)`. -/
def round2 (q : ℚ) : ℚ :=
  (roundHalfEven (q * 100) : ℚ) / 100

/-- The `quantize` helper of `UdpServerThread.run`:
`round(float(val), 2)`.  On non-finite floats Python's `round(val, 2)`
returns the value unchanged (`round(nan, 2)` is `nan`, `round(inf, 2)` is
`inf`); no branch coerces them to `0.0`. -/
def quantize : PFloat → PFloat
  | .fin q => .fin (round2 q)
  | v => v

/-- A decoded JSON message: each recognized key is either absent or bound
to a (possibly non-finite) float. -/
structure UdpMessage where
  gx : Option PFloat
  gy : Option PFloat
  gz : Option PFloat
  ax : Option PFloat
  ay : Option PFloat
  az : Option PFloat
deriving DecidableEq, Repr

/-- Python's `jd.get(key, 0.0)`: the bound value, or `0.0` when the key is
absent. -/
def jget (o : Option PFloat) : PFloat :=
  o.getD (.fin 0)

/-- The six-float payload emitted by `UdpServerThread.data_received`. -/
structure PSample where
  gx : PFloat
  gy : PFloat
  gz : PFloat
  ax : PFloat
  ay : PFloat
  az : PFloat
deriving DecidableEq, Repr

/-- The decode-and-emit step of `UdpServerThread.run`: read each
recognized key with default `0.0` and quantize it. -/
def udp_decode (jd : UdpMessage) : PSample :=
  ⟨quantize (jget jd.gx), quantize (jget jd.gy), quantize (jget jd.gz),
    quantize (jget jd.ax), quantize (jget jd.ay), quantize (jget jd.az)⟩

/-- The decoded form of the datagram `{"gy": NaN}`, which Python's
`json.loads` parses successfully. -/
def nanMessage : UdpMessage :=
  ⟨none, some .nan, none, none, none, none⟩

/-! ### Basic lemmas about the embedded operations -/

theorem update_physics_of_calibrating (a2d : ℚ → ℚ → ℚ) (s : State)
    (h : s.is_calibrating = true) : update_physics a2d s = s := by
  simp [update_physics, h]

theorem update_physics_of_active (a2d : ℚ → ℚ → ℚ) (s : State)
    (h : s.is_calibrating = false) :
    update_physics a2d s =
      { s with
        running_bias_ax := tickRB s.running_bias_ax s.f_ax
        running_bias_ay := tickRB s.running_bias_ay s.f_ay
        running_bias_az := tickRB s.running_bias_az s.f_az
        pos_x := s.pos_x + tickGyroY s * s.gyro_sensitivity
        pos_y := tickDiffAy s * ACCEL_SENSITIVITY
        rotation_angle := tickAngleDiff a2d s * (12/10)
        scale_factor := s.scale_factor + (tickTargetScale s - s.scale_factor) * (1/10)
        target_opacity := tickTargetOpacity a2d s
        current_opacity :=
          s.current_opacity + (tickTargetOpacity a2d s - s.current_opacity) * (1/10) } := by
  simp [update_physics, h]

/-- A sensor sample never changes the rendering outputs: position,
rotation, scale and the opacities are untouched by `on_sensor_data`. -/
theorem on_sensor_data_render_fields (a2d : ℚ → ℚ → ℚ) (s : State) (m : Sample) :
    (on_sensor_data a2d s m).pos_x = s.pos_x ∧
    (on_sensor_data a2d s m).pos_y = s.pos_y ∧
    (on_sensor_data a2d s m).rotation_angle = s.rotation_angle ∧
    (on_sensor_data a2d s m).scale_factor = s.scale_factor ∧
    (on_sensor_data a2d s m).current_opacity = s.current_opacity ∧
    (on_sensor_data a2d s m).target_opacity = s.target_opacity := by
  unfold on_sensor_data
  split <;> dsimp only <;> split <;> exact ⟨rfl, rfl, rfl, rfl, rfl, rfl⟩

/-- Invariant induction over a full event run. -/
theorem run_invariant (a2d : ℚ → ℚ → ℚ) (P : State → Prop)
    (h0 : P initState)
    (hs : ∀ s m, P s → P (on_sensor_data a2d s m))
    (ht : ∀ s, P s → P (update_physics a2d s))
    (hr : ∀ s, P s → P (start_calibration s))
    (hv : ∀ s v, P s → P (set_gyro_sensitivity s v)) :
    ∀ evts, P (run a2d evts) := by
  have aux : ∀ (l : List Event) (s : State), P s → P (l.foldl (step a2d) s) := by
    intro l
    induction l with
    | nil => intro s hsP; exact hsP
    | cons e l ih =>
      intro s hsP
      cases e with
      | sample m => exact ih _ (hs _ _ hsP)
      | tick => exact ih _ (ht _ hsP)
      | recalibrate => exact ih _ (hr _ hsP)
      | setSens v => exact ih _ (hv _ _ hsP)
  intro evts
  exact aux evts initState h0

/-! ### C7: recalibration resets only the accumulator and the flag -/

/-- C7: `start_calibration` empties the calibration accumulator, sets
`is_calibrating` to `true`, and leaves every other piece of state — the
biases, the filter windows and filtered values, position, rotation, scale
and opacity — at its prior value. -/
theorem start_calibration_frame_effect (s : State) :
    (start_calibration s).calib_data = [] ∧
    (start_calibration s).is_calibrating = true ∧
    (start_calibration s).bias_gy = s.bias_gy ∧
    (start_calibration s).running_bias_ax = s.running_bias_ax ∧
    (start_calibration s).running_bias_ay = s.running_bias_ay ∧
    (start_calibration s).running_bias_az = s.running_bias_az ∧
    (start_calibration s).bias_angle = s.bias_angle ∧
    (start_calibration s).buf_ax = s.buf_ax ∧
    (start_calibration s).buf_ay = s.buf_ay ∧
    (start_calibration s).buf_az = s.buf_az ∧
    (start_calibration s).buf_gy = s.buf_gy ∧
    (start_calibration s).f_ax = s.f_ax ∧
    (start_calibration s).f_ay = s.f_ay ∧
    (start_calibration s).f_az = s.f_az ∧
    (start_calibration s).f_gy = s.f_gy ∧
    (start_calibration s).pos_x = s.pos_x ∧
    (start_calibration s).pos_y = s.pos_y ∧
    (start_calibration s).rotation_angle = s.rotation_angle ∧
    (start_calibration s).scale_factor = s.scale_factor ∧
    (start_calibration s).current_opacity = s.current_opacity ∧
    (start_calibration s).target_opacity = s.target_opacity ∧
    (start_calibration s).gyro_sensitivity = s.gyro_sensitivity := by
  refine ⟨rfl, rfl, rfl, rfl, rfl, rfl, rfl, rfl, rfl, rfl, rfl, rfl, rfl, rfl,
    rfl, rfl, rfl, rfl, rfl, rfl, rfl, rfl⟩

/-! ### C10: the sensitivity setter scales its argument by ten -/

/-- C10: `set_gyro_sensitivity v` stores `v * 10.0` (not `v`) as the
lateral integration gain, so the tray presets `1.0 / 4.0 / 8.0` produce
effective gains `10 / 40 / 80`, and the default preset `4.0` matches the
initial gain `40`. -/
theorem set_gyro_sensitivity_scales_by_ten (s : State) (v : ℚ) :
    (set_gyro_sensitivity s v).gyro_sensitivity = v * 10 ∧
    (v ≠ 0 → (set_gyro_sensitivity s v).gyro_sensitivity ≠ v) ∧
    (set_gyro_sensitivity s 1).gyro_sensitivity = 10 ∧
    (set_gyro_sensitivity s 4).gyro_sensitivity = 40 ∧
    (set_gyro_sensitivity s 8).gyro_sensitivity = 80 ∧
    initState.gyro_sensitivity = 40 := by
  refine ⟨rfl, ?_, by norm_num [set_gyro_sensitivity], by norm_num [set_gyro_sensitivity],
    by norm_num [set_gyro_sensitivity], rfl⟩
  intro hv
  simp only [set_gyro_sensitivity]
  intro heq
  apply hv
  linarith

/-- Witness for C10 at the default preset `4.0`: the stored gain is `40`,
which differs from the raw preset value `4`. -/
theorem set_gyro_sensitivity_scales_by_ten_witness :
    (set_gyro_sensitivity initState 4).gyro_sensitivity ≠ 4 :=
  (set_gyro_sensitivity_scales_by_ten initState 4).2.1 (by norm_num)

/-! ### C6: running biases adapt each tick, fixed biases never do -/

/-- C6: an active physics tick updates each running bias to
`running_bias * (1 - 0.02) + filtered_value * 0.02`, while `bias_gy` and
`bias_angle` are never modified by any tick (calibrating or not). -/
theorem tick_running_bias_update_fixed_bias_frozen (a2d : ℚ → ℚ → ℚ) (s : State) :
    ((update_physics a2d s).bias_gy = s.bias_gy ∧
      (update_physics a2d s).bias_angle = s.bias_angle) ∧
    (s.is_calibrating = false →
      (update_physics a2d s).running_bias_ax
          = s.running_bias_ax * (1 - 2/100) + s.f_ax * (2/100) ∧
      (update_physics a2d s).running_bias_ay
          = s.running_bias_ay * (1 - 2/100) + s.f_ay * (2/100) ∧
      (update_physics a2d s).running_bias_az
          = s.running_bias_az * (1 - 2/100) + s.f_az * (2/100)) := by
  constructor
  · unfold update_physics
    split <;> exact ⟨rfl, rfl⟩
  · intro h
    rw [update_physics_of_active a2d s h]
    exact ⟨rfl, rfl, rfl⟩

/-- Witness for C6 on the quiescent post-calibration state. -/
theorem tick_running_bias_update_witness :
    (update_physics atan2deg0 activeState).running_bias_ax
        = activeState.running_bias_ax * (1 - 2/100) + activeState.f_ax * (2/100) ∧
    (update_physics atan2deg0 activeState).running_bias_ay
        = activeState.running_bias_ay * (1 - 2/100) + activeState.f_ay * (2/100) ∧
    (update_physics atan2deg0 activeState).running_bias_az
        = activeState.running_bias_az * (1 - 2/100) + activeState.f_az * (2/100) :=
  (tick_running_bias_update_fixed_bias_frozen atan2deg0 activeState).2 rfl

/-! ### C9: non-finite input fields are not coerced to zero -/

/-- C9 evaluated at the failing input `{"gy": NaN}`: the ingestion path
(`jd.get` followed by `quantize`) emits the NaN unchanged into the
pipeline instead of coercing it to `0.0` — `round(nan, 2)` is still
`nan`, so a non-finite field reaches the filter windows. -/
theorem nan_field_survives_ingestion :
    (udp_decode nanMessage).gy = PFloat.nan ∧
    ((udp_decode nanMessage).gy).isFinite = false ∧
    quantize PFloat.nan ≠ PFloat.fin 0 := by
  refine ⟨rfl, rfl, ?_⟩
  intro h
  exact PFloat.noConfusion h

/-! ### C2: the scale factor stays inside `[0.5, 3.0]` -/

/-- Bounds on the clamped scale target. -/
theorem tickTargetScale_bounds (s : State) :
    1/2 ≤ tickTargetScale s ∧ tickTargetScale s ≤ 3 := by
  unfold tickTargetScale
  constructor
  · exact le_max_left _ _
  · exact max_le (by norm_num) (min_le_left _ _)

/-- C2: along every event sequence — any interleaving of sensor samples of
any magnitude, physics ticks, recalibrations and sensitivity changes — the
scale factor stays inside the inclusive bounds `[0.5, 3.0]`. -/
theorem scale_factor_always_clamped (a2d : ℚ → ℚ → ℚ) (evts : List Event) :
    1/2 ≤ (run a2d evts).scale_factor ∧ (run a2d evts).scale_factor ≤ 3 := by
  refine run_invariant a2d (fun s => 1/2 ≤ s.scale_factor ∧ s.scale_factor ≤ 3)
    (by norm_num [initState]) ?_ ?_ (fun s h => h) (fun s v h => h) evts
  · intro s m h
    rw [(on_sensor_data_render_fields a2d s m).2.2.2.1]
    exact h
  · intro s h
    rcases hcal : s.is_calibrating with hfalse | htrue
    · rw [update_physics_of_active a2d s hcal]
      obtain ⟨hts1, hts2⟩ := tickTargetScale_bounds s
      constructor
      · simp only
        nlinarith [h.1, h.2]
      · simp only
        nlinarith [h.1, h.2]
    · rw [update_physics_of_calibrating a2d s hcal]
      exact h

/-! ### C4: sub-dead-zone diffs contribute nothing -/

/-- C4: on an active tick, a per-axis diff whose magnitude is strictly
below its dead-zone threshold (`0.08` for the gyro lateral axis, `0.1` for
the vertical and scale axes, `1.0` degree for rotation) is forced to zero:
`pos_x` keeps its value, `pos_y` and `rotation_angle` are set to `0`, and
the scale target collapses to the neutral `1.0` so the scale factor only
relaxes toward `1`. -/
theorem deadzone_zero_contribution (a2d : ℚ → ℚ → ℚ) (s : State)
    (hcal : s.is_calibrating = false) :
    (|s.f_gy - s.bias_gy| < 8/100 → (update_physics a2d s).pos_x = s.pos_x) ∧
    (|s.f_ay - tickRB s.running_bias_ay s.f_ay| < 1/10 →
      (update_physics a2d s).pos_y = 0) ∧
    (|a2d s.f_ax s.f_ay - s.bias_angle| < 1 →
      (update_physics a2d s).rotation_angle = 0) ∧
    (|s.f_az - tickRB s.running_bias_az s.f_az| < 1/10 →
      (update_physics a2d s).scale_factor
        = s.scale_factor + (1 - s.scale_factor) * (1/10)) := by
  rw [update_physics_of_active a2d s hcal]
  refine ⟨fun h => ?_, fun h => ?_, fun h => ?_, fun h => ?_⟩
  · simp only [tickGyroY, deadzone, if_pos h]
    ring
  · simp only [tickDiffAy, deadzone, if_pos h]
    ring
  · simp only [tickAngleDiff, deadzone, if_pos h]
    ring
  · simp only [tickTargetScale, tickDiffAz, deadzone, if_pos h]
    norm_num

/-- Witness for C4 on the quiescent post-calibration state, where every
diff is exactly `0` and hence below its threshold. -/
theorem deadzone_zero_contribution_witness :
    (update_physics atan2deg0 activeState).pos_x = activeState.pos_x ∧
    (update_physics atan2deg0 activeState).pos_y = 0 ∧
    (update_physics atan2deg0 activeState).rotation_angle = 0 ∧
    (update_physics atan2deg0 activeState).scale_factor
      = activeState.scale_factor + (1 - activeState.scale_factor) * (1/10) := by
  obtain ⟨h1, h2, h3, h4⟩ := deadzone_zero_contribution atan2deg0 activeState rfl
  refine ⟨h1 ?_, h2 ?_, h3 ?_, h4 ?_⟩ <;>
    norm_num [activeState, initState, tickRB, adaptation_rate, atan2deg0]

/-! ### C3: calibration accumulates, then finalizes past 30 samples -/

/-- C3: while calibrating, an accepted sample is appended to the
accumulator; if the accumulated count does not yet exceed 30 nothing else
changes, and as soon as it exceeds 30 the per-axis means of all
accumulated samples become `bias_gy` and the three running biases,
`bias_angle` becomes `degrees(atan2(mean_ax, mean_ay))`, and
`is_calibrating` turns off. -/
theorem calibration_accumulates_then_finalizes (a2d : ℚ → ℚ → ℚ) (s : State)
    (m : Sample) (h : s.is_calibrating = true) :
    (on_sensor_data a2d s m).calib_data = s.calib_data ++ [m] ∧
    (if 30 < s.calib_data.length + 1 then
        (on_sensor_data a2d s m).bias_gy = colMean (s.calib_data ++ [m]) Sample.gy ∧
        (on_sensor_data a2d s m).running_bias_ax
          = colMean (s.calib_data ++ [m]) Sample.ax ∧
        (on_sensor_data a2d s m).running_bias_ay
          = colMean (s.calib_data ++ [m]) Sample.ay ∧
        (on_sensor_data a2d s m).running_bias_az
          = colMean (s.calib_data ++ [m]) Sample.az ∧
        (on_sensor_data a2d s m).bias_angle
          = a2d (colMean (s.calib_data ++ [m]) Sample.ax)
              (colMean (s.calib_data ++ [m]) Sample.ay) ∧
        (on_sensor_data a2d s m).is_calibrating = false
      else
        on_sensor_data a2d s m = { s with calib_data := s.calib_data ++ [m] }) := by
  by_cases hlen : 30 < s.calib_data.length + 1
  · simp [on_sensor_data, h, hlen]
  · simp [on_sensor_data, h, hlen]

/-- Witness for C3: the first calibration sample on the fresh overlay is
appended and, the threshold not being reached, nothing else changes. -/
theorem calibration_accumulates_witness :
    (on_sensor_data atan2deg0 initState zeroSample).calib_data
        = initState.calib_data ++ [zeroSample] ∧
    on_sensor_data atan2deg0 initState zeroSample
        = { initState with calib_data := initState.calib_data ++ [zeroSample] } := by
  have h := calibration_accumulates_then_finalizes atan2deg0 initState zeroSample rfl
  refine ⟨h.1, ?_⟩
  have h2 := h.2
  rw [if_neg (by norm_num [initState])] at h2
  exact h2

/-! ### C8: end-to-end scenario 1, `pos_x` steps by exactly 200 -/

/-- After the scenario-1 events the overlay is calibrated with
`bias_gy = 0`, the warm filter window reports `f_gy = 5`, and the gain is
the default `40`. -/
theorem scenario1_setup (a2d : ℚ → ℚ → ℚ) :
    (run a2d scenario1Events).is_calibrating = false ∧
    (run a2d scenario1Events).f_gy = 5 ∧
    (run a2d scenario1Events).bias_gy = 0 ∧
    (run a2d scenario1Events).gyro_sensitivity = 40 := by
  norm_num [scenario1Events, run, step, on_sensor_data, dpush, colMean,
    initState, window_size, List.replicate, calibSample98, gy5Sample]

/-- An active tick does not touch the calibration flag, the filtered gyro
value, its fixed bias, or the gain. -/
theorem tick_keeps_sensing (a2d : ℚ → ℚ → ℚ) (s : State)
    (h : s.is_calibrating = false) :
    (update_physics a2d s).is_calibrating = false ∧
    (update_physics a2d s).f_gy = s.f_gy ∧
    (update_physics a2d s).bias_gy = s.bias_gy ∧
    (update_physics a2d s).gyro_sensitivity = s.gyro_sensitivity := by
  rw [update_physics_of_active a2d s h]
  exact ⟨h, rfl, rfl, rfl⟩

/-- C8: after calibrating on 31 rest samples (`gy = 0`, `ay = 9.8`) and
warming the filter window with `gy = 5.0` samples, every physics tick at
the default gain `40` increases `pos_x` by exactly `(5 - 0) * 40 = 200`. -/
theorem scenario1_pos_x_steps_by_200 (a2d : ℚ → ℚ → ℚ) :
    ∀ k : ℕ,
      ((update_physics a2d)^[k + 1] (run a2d scenario1Events)).pos_x
        = ((update_physics a2d)^[k] (run a2d scenario1Events)).pos_x + 200 := by
  obtain ⟨h1, h2, h3, h4⟩ := scenario1_setup a2d
  have inv : ∀ k : ℕ,
      ((update_physics a2d)^[k] (run a2d scenario1Events)).is_calibrating = false ∧
      ((update_physics a2d)^[k] (run a2d scenario1Events)).f_gy = 5 ∧
      ((update_physics a2d)^[k] (run a2d scenario1Events)).bias_gy = 0 ∧
      ((update_physics a2d)^[k] (run a2d scenario1Events)).gyro_sensitivity = 40 := by
    intro k
    induction k with
    | zero => exact ⟨h1, h2, h3, h4⟩
    | succ k ih =>
      obtain ⟨i1, i2, i3, i4⟩ := ih
      obtain ⟨j1, j2, j3, j4⟩ := tick_keeps_sensing a2d _ i1
      rw [Function.iterate_succ_apply']
      exact ⟨j1, j2.trans i2, j3.trans i3, j4.trans i4⟩
  intro k
  obtain ⟨i1, i2, i3, i4⟩ := inv k
  rw [Function.iterate_succ_apply', update_physics_of_active a2d _ i1]
  simp only [tickGyroY, i2, i3, i4, deadzone]
  norm_num

/-! ### C1: opacity range and convergence at rest -/

/-- The dead zone maps a zero diff to zero (both branches return `0`). -/
theorem deadzone_of_zero (th : ℚ) : deadzone th 0 = 0 := by
  unfold deadzone
  split <;> rfl

/-- A bias already equal to the filtered value is a fixed point of the
running-bias update. -/
theorem tickRB_fixed (b : ℚ) : tickRB b b = b := by
  unfold tickRB adaptation_rate
  ring

/-- The computed target opacity always lies in `[0, 1.2]` (the `+0.2`
floor on top of the clamped term makes `1.2`, not `1.0`, the ceiling). -/
theorem tickTargetOpacity_bounds (a2d : ℚ → ℚ → ℚ) (s : State) :
    0 ≤ tickTargetOpacity a2d s ∧ tickTargetOpacity a2d s ≤ 6/5 := by
  unfold tickTargetOpacity
  split
  · rename_i h
    have h1 : (0:ℚ) ≤ (tickMotion a2d s - 15/100) / (8/10) := by
      apply div_nonneg
      · linarith
      · norm_num
    have h2 : (0:ℚ) ≤ min 1 ((tickMotion a2d s - 15/100) / (8/10)) :=
      le_min (by norm_num) h1
    have h3 := min_le_left (1:ℚ) ((tickMotion a2d s - 15/100) / (8/10))
    constructor <;> linarith
  · norm_num

/-- At perfect rest an active tick preserves the rest condition and decays
the opacity by the factor `0.9`. -/
theorem atRest_tick (a2d : ℚ → ℚ → ℚ) (s : State)
    (hcal : s.is_calibrating = false) (hr : AtRest a2d s) :
    (update_physics a2d s).is_calibrating = false ∧
    AtRest a2d (update_physics a2d s) ∧
    (update_physics a2d s).current_opacity = s.current_opacity * (9/10) := by
  obtain ⟨h1, h2, h3, h4⟩ := hr
  have hrb_ay : tickRB s.running_bias_ay s.f_ay = s.running_bias_ay := by
    rw [h2, tickRB_fixed]
  have hrb_az : tickRB s.running_bias_az s.f_az = s.running_bias_az := by
    rw [h3, tickRB_fixed]
  have hgy : tickGyroY s = 0 := by
    unfold tickGyroY
    rw [h1, sub_self, deadzone_of_zero]
  have hay : tickDiffAy s = 0 := by
    unfold tickDiffAy
    rw [hrb_ay, h2, sub_self, deadzone_of_zero]
  have hang : tickAngleDiff a2d s = 0 := by
    unfold tickAngleDiff
    rw [h4, sub_self, deadzone_of_zero]
  have haz : tickDiffAz s = 0 := by
    unfold tickDiffAz
    rw [hrb_az, h3, sub_self, deadzone_of_zero]
  have hmot : tickMotion a2d s = 0 := by
    unfold tickMotion
    rw [hgy, hay, hang, haz]
    norm_num
  have htop : tickTargetOpacity a2d s = 0 := by
    unfold tickTargetOpacity
    rw [hmot]
    norm_num
  rw [update_physics_of_active a2d s hcal]
  refine ⟨hcal, ⟨h1, ?_, ?_, h4⟩, ?_⟩
  · show s.f_ay = tickRB s.running_bias_ay s.f_ay
    rw [hrb_ay]
    exact h2
  · show s.f_az = tickRB s.running_bias_az s.f_az
    rw [hrb_az]
    exact h3
  · show s.current_opacity + (tickTargetOpacity a2d s - s.current_opacity) * (1/10)
        = s.current_opacity * (9/10)
    rw [htop]
    ring

/-- Geometric decay dominated by a harmonic bound, used to discharge the
epsilon-of-convergence goal inside `ℚ`. -/
theorem pow_nine_tenths_le (k : ℕ) : ((9:ℚ)/10)^k ≤ 9 / (9 + k) := by
  have h9k : (0:ℚ) < 9 + k := by positivity
  have h1 : ((9 + (k:ℚ)))/9 ≤ ((10:ℚ)/9)^k := by
    have hb := one_add_mul_le_pow (a := (1:ℚ)/9) (by norm_num) k
    have h19 : (1:ℚ) + 1/9 = 10/9 := by norm_num
    rw [h19] at hb
    calc ((9 + (k:ℚ)))/9 = 1 + k * (1/9) := by ring
    _ ≤ ((10:ℚ)/9)^k := hb
  have hpos : (0:ℚ) < (9 + (k:ℚ))/9 := by positivity
  calc ((9:ℚ)/10)^k = (((10:ℚ)/9)^k)⁻¹ := by
        rw [← inv_pow]
        norm_num
  _ ≤ ((9 + (k:ℚ))/9)⁻¹ := inv_anti₀ hpos h1
  _ = 9 / (9 + k) := by rw [inv_div]

/-- Counterexample to "opacity is always within `[0.0, 1.0]`": after
calibration, six large gyro samples and 18 ticks, the smoothed opacity
(chasing the target `min(1, …) + 0.2 = 1.2`) exceeds `1`. -/
theorem opacity_exceeds_one :
    1 < (run atan2deg0 opacityOverflowEvents).current_opacity := by
  norm_num [opacityOverflowEvents, run, step, on_sensor_data, update_physics,
    dpush, colMean, deadzone, initState, zeroSample, gy100Sample, atan2deg0,
    window_size, adaptation_rate, ZOOM_SENSITIVITY, ACCEL_SENSITIVITY,
    List.replicate, tickRB, tickGyroY, tickDiffAy, tickAngleDiff, tickDiffAz,
    tickTargetScale, tickMotion, tickTargetOpacity]

/-- C1 (amended): along every event sequence the emitted opacity stays in
`[0.0, 1.2]`, and from any active state at perfect rest (all axis diffs
zero) the opacity converges to `0.0` — for every positive tolerance there
is a tick count beyond which it is smaller. -/
theorem opacity_bounded_and_rest_decays (a2d : ℚ → ℚ → ℚ) :
    (∀ evts, 0 ≤ (run a2d evts).current_opacity ∧
      (run a2d evts).current_opacity ≤ 6/5) ∧
    (∀ s, s.is_calibrating = false → AtRest a2d s → ∀ ε : ℚ, 0 < ε →
      ∃ N : ℕ, ∀ k, N ≤ k →
        |((update_physics a2d)^[k] s).current_opacity| < ε) := by
  constructor
  · intro evts
    refine run_invariant a2d
      (fun s => 0 ≤ s.current_opacity ∧ s.current_opacity ≤ 6/5)
      (by norm_num [initState]) ?_ ?_ (fun s h => h) (fun s v h => h) evts
    · intro s m h
      rw [(on_sensor_data_render_fields a2d s m).2.2.2.2.1]
      exact h
    · intro s h
      rcases hcal : s.is_calibrating with _ | _
      · rw [update_physics_of_active a2d s hcal]
        obtain ⟨ht1, ht2⟩ := tickTargetOpacity_bounds a2d s
        constructor
        · show 0 ≤ s.current_opacity + (tickTargetOpacity a2d s - s.current_opacity) * (1/10)
          linarith [h.1, h.2]
        · show s.current_opacity + (tickTargetOpacity a2d s - s.current_opacity) * (1/10) ≤ 6/5
          linarith [h.1, h.2]
      · rw [update_physics_of_calibrating a2d s hcal]
        exact h
  · intro s hcal hrest ε hε
    have iter : ∀ k : ℕ,
        ((update_physics a2d)^[k] s).is_calibrating = false ∧
        AtRest a2d ((update_physics a2d)^[k] s) ∧
        ((update_physics a2d)^[k] s).current_opacity
          = s.current_opacity * (9/10)^k := by
      intro k
      induction k with
      | zero => exact ⟨hcal, hrest, by simp⟩
      | succ k ih =>
        obtain ⟨i1, i2, i3⟩ := ih
        obtain ⟨j1, j2, j3⟩ := atRest_tick a2d _ i1 i2
        rw [Function.iterate_succ_apply']
        refine ⟨j1, j2, ?_⟩
        rw [j3, i3]
        ring
    obtain ⟨N, hN⟩ := exists_nat_gt (9 * |s.current_opacity| / ε)
    refine ⟨N, fun k hk => ?_⟩
    obtain ⟨-, -, hop⟩ := iter k
    rw [hop, abs_mul, abs_pow]
    have h910 : |(9:ℚ)/10| = 9/10 := by norm_num
    rw [h910]
    have hb := pow_nine_tenths_le k
    have h9k : (0:ℚ) < 9 + k := by positivity
    have hkN : (N:ℚ) ≤ k := by exact_mod_cast hk
    have hNe : 9 * |s.current_opacity| < ε * N := by
      rw [div_lt_iff₀ hε] at hN
      linarith
    have step1 : |s.current_opacity| * ((9:ℚ)/10)^k
        ≤ |s.current_opacity| * (9/(9+k)) :=
      mul_le_mul_of_nonneg_left hb (abs_nonneg _)
    have step2 : |s.current_opacity| * (9/(9+(k:ℚ))) < ε := by
      rw [← mul_div_assoc, div_lt_iff₀ h9k]
      nlinarith [hNe, hkN, hε.le]
    linarith

/-- Witness for C1 (amended) on the quiescent post-calibration rest state,
with tolerance `1/2`. -/
theorem opacity_rest_decay_witness :
    ∃ N : ℕ, ∀ k, N ≤ k →
      |((update_physics atan2deg0)^[k] activeState).current_opacity| < 1/2 :=
  (opacity_bounded_and_rest_decays atan2deg0).2 activeState rfl
    ⟨rfl, rfl, rfl, rfl⟩ (1/2) (by norm_num)

/-! ### C5: the filtered value versus the window's range -/

theorem foldl_min_le_init (xs : List ℚ) : ∀ a : ℚ, xs.foldl min a ≤ a := by
  induction xs with
  | nil => intro a; exact le_refl a
  | cons y ys ih => intro a; exact le_trans (ih (min a y)) (min_le_left a y)

theorem foldl_min_le_mem (xs : List ℚ) :
    ∀ (a x : ℚ), x ∈ xs → xs.foldl min a ≤ x := by
  induction xs with
  | nil => intro a x hx; cases hx
  | cons y ys ih =>
    intro a x hx
    rcases List.mem_cons.mp hx with h | h
    · subst h
      exact le_trans (foldl_min_le_init ys (min a x)) (min_le_right a x)
    · exact ih (min a y) x h

theorem init_le_foldl_max (xs : List ℚ) : ∀ a : ℚ, a ≤ xs.foldl max a := by
  induction xs with
  | nil => intro a; exact le_refl a
  | cons y ys ih => intro a; exact le_trans (le_max_left a y) (ih (max a y))

theorem mem_le_foldl_max (xs : List ℚ) :
    ∀ (a x : ℚ), x ∈ xs → x ≤ xs.foldl max a := by
  induction xs with
  | nil => intro a x hx; cases hx
  | cons y ys ih =>
    intro a x hx
    rcases List.mem_cons.mp hx with h | h
    · subst h
      exact le_trans (le_max_right a x) (init_le_foldl_max ys (max a x))
    · exact ih (max a y) x h

theorem listMin_le {l : List ℚ} {x : ℚ} (hx : x ∈ l) : listMin l ≤ x := by
  cases l with
  | nil => cases hx
  | cons y ys =>
    rcases List.mem_cons.mp hx with h | h
    · subst h
      exact foldl_min_le_init ys x
    · exact foldl_min_le_mem ys y x h

theorem le_listMax {l : List ℚ} {x : ℚ} (hx : x ∈ l) : x ≤ listMax l := by
  cases l with
  | nil => cases hx
  | cons y ys =>
    rcases List.mem_cons.mp hx with h | h
    · subst h
      exact init_le_foldl_max ys x
    · exact mem_le_foldl_max ys y x h

theorem mul_length_le_sum (l : List ℚ) (a : ℚ) (h : ∀ x ∈ l, a ≤ x) :
    a * l.length ≤ l.sum := by
  induction l with
  | nil => simp
  | cons y ys ih =>
    have h1 : a ≤ y := h y (List.mem_cons_self y ys)
    have h2 := ih (fun x hx => h x (List.mem_cons_of_mem y hx))
    simp only [List.sum_cons, List.length_cons]
    push_cast
    have hexp : a * ((ys.length : ℚ) + 1) = a * ys.length + a := by ring
    rw [hexp]
    linarith

theorem sum_le_mul_length (l : List ℚ) (a : ℚ) (h : ∀ x ∈ l, x ≤ a) :
    l.sum ≤ a * l.length := by
  induction l with
  | nil => simp
  | cons y ys ih =>
    have h1 : y ≤ a := h y (List.mem_cons_self y ys)
    have h2 := ih (fun x hx => h x (List.mem_cons_of_mem y hx))
    simp only [List.sum_cons, List.length_cons]
    push_cast
    have hexp : a * ((ys.length : ℚ) + 1) = a * ys.length + a := by ring
    rw [hexp]
    linarith

/-- A moving average cannot escape the range of the averaged window. -/
theorem mean_within_range {l : List ℚ} (h : l ≠ []) :
    listMin l ≤ l.sum / l.length ∧ l.sum / l.length ≤ listMax l := by
  have hpos : (0:ℚ) < l.length := by
    have := List.length_pos.mpr h
    exact_mod_cast this
  constructor
  · rw [le_div_iff₀ hpos]
    exact mul_length_le_sum l (listMin l) (fun x hx => listMin_le hx)
  · rw [div_le_iff₀ hpos]
    exact sum_le_mul_length l (listMax l) (fun x hx => le_listMax hx)

theorem dpush_length (buf : List ℚ) (v : ℚ) :
    (dpush buf v).length
      = if buf.length < window_size then buf.length + 1 else buf.length := by
  unfold dpush
  by_cases h : buf.length < window_size
  · rw [if_pos h, if_pos h]
    simp
  · rw [if_neg h, if_neg h]
    simp only [List.length_append, List.length_drop, List.length_cons,
      List.length_nil]
    have h0 : 0 < buf.length :=
      lt_of_lt_of_le (by norm_num [window_size]) (Nat.le_of_not_lt h)
    omega

/-- Any sample received while calibrating leaves the filter windows and
filtered values untouched. -/
theorem on_sensor_data_of_calibrating_keeps_windows (a2d : ℚ → ℚ → ℚ)
    (s : State) (m : Sample) (h : s.is_calibrating = true) :
    (on_sensor_data a2d s m).buf_ax = s.buf_ax ∧
    (on_sensor_data a2d s m).buf_ay = s.buf_ay ∧
    (on_sensor_data a2d s m).buf_az = s.buf_az ∧
    (on_sensor_data a2d s m).buf_gy = s.buf_gy ∧
    (on_sensor_data a2d s m).f_ax = s.f_ax ∧
    (on_sensor_data a2d s m).f_ay = s.f_ay ∧
    (on_sensor_data a2d s m).f_az = s.f_az ∧
    (on_sensor_data a2d s m).f_gy = s.f_gy := by
  simp only [on_sensor_data, h, if_true]
  split <;> exact ⟨rfl, rfl, rfl, rfl, rfl, rfl, rfl, rfl⟩

/-- A physics tick leaves the filter windows and filtered values
untouched. -/
theorem tick_keeps_windows (a2d : ℚ → ℚ → ℚ) (s : State) :
    (update_physics a2d s).buf_ax = s.buf_ax ∧
    (update_physics a2d s).buf_ay = s.buf_ay ∧
    (update_physics a2d s).buf_az = s.buf_az ∧
    (update_physics a2d s).buf_gy = s.buf_gy ∧
    (update_physics a2d s).f_ax = s.f_ax ∧
    (update_physics a2d s).f_ay = s.f_ay ∧
    (update_physics a2d s).f_az = s.f_az ∧
    (update_physics a2d s).f_gy = s.f_gy := by
  unfold update_physics
  split <;> exact ⟨rfl, rfl, rfl, rfl, rfl, rfl, rfl, rfl⟩

/-- Invariant carried along every run: the four windows share one length,
and each filtered value is within its window's range once that window is
full. -/
theorem filter_window_invariant (a2d : ℚ → ℚ → ℚ) (evts : List Event) :
    ((run a2d evts).buf_ay.length = (run a2d evts).buf_ax.length ∧
      (run a2d evts).buf_az.length = (run a2d evts).buf_ax.length ∧
      (run a2d evts).buf_gy.length = (run a2d evts).buf_ax.length) ∧
    WindowOk (run a2d evts).buf_ax (run a2d evts).f_ax ∧
    WindowOk (run a2d evts).buf_ay (run a2d evts).f_ay ∧
    WindowOk (run a2d evts).buf_az (run a2d evts).f_az ∧
    WindowOk (run a2d evts).buf_gy (run a2d evts).f_gy := by
  refine run_invariant a2d
    (fun s =>
      (s.buf_ay.length = s.buf_ax.length ∧
        s.buf_az.length = s.buf_ax.length ∧
        s.buf_gy.length = s.buf_ax.length) ∧
      WindowOk s.buf_ax s.f_ax ∧ WindowOk s.buf_ay s.f_ay ∧
        WindowOk s.buf_az s.f_az ∧ WindowOk s.buf_gy s.f_gy)
    ?_ ?_ ?_ (fun s h => h) (fun s v h => h) evts
  · exact ⟨⟨rfl, rfl, rfl⟩,
      fun h => by simp [initState, window_size] at h,
      fun h => by simp [initState, window_size] at h,
      fun h => by simp [initState, window_size] at h,
      fun h => by simp [initState, window_size] at h⟩
  · intro s m hP
    rcases hcal : s.is_calibrating with _ | _
    · obtain ⟨⟨l1, l2, l3⟩, w1, w2, w3, w4⟩ := hP
      have hlay : (dpush s.buf_ay m.ay).length = (dpush s.buf_ax m.ax).length := by
        rw [dpush_length, dpush_length, l1]
      have hlaz : (dpush s.buf_az m.az).length = (dpush s.buf_ax m.ax).length := by
        rw [dpush_length, dpush_length, l2]
      have hlgy : (dpush s.buf_gy m.gy).length = (dpush s.buf_ax m.ax).length := by
        rw [dpush_length, dpush_length, l3]
      simp only [on_sensor_data, hcal, Bool.false_eq_true, if_false, ge_iff_le]
      split
      · rename_i hfull
        have hne : ∀ (b : List ℚ), window_size ≤ b.length → b ≠ [] := by
          intro b hb
          refine List.length_pos.mp ?_
          calc 0 < window_size := by norm_num [window_size]
          _ ≤ b.length := hb
        refine ⟨⟨hlay, hlaz, hlgy⟩, ?_, ?_, ?_, ?_⟩ <;> intro hfull'
        · exact mean_within_range (hne _ hfull)
        · exact mean_within_range (hne _ (by rw [hlay]; exact hfull))
        · exact mean_within_range (hne _ (by rw [hlaz]; exact hfull))
        · exact mean_within_range (hne _ (by rw [hlgy]; exact hfull))
      · rename_i hnotfull
        refine ⟨⟨hlay, hlaz, hlgy⟩, ?_, ?_, ?_, ?_⟩ <;> intro hfull'
        · exact absurd hfull' hnotfull
        · exact absurd (hlay ▸ hfull') hnotfull
        · exact absurd (hlaz ▸ hfull') hnotfull
        · exact absurd (hlgy ▸ hfull') hnotfull
    · obtain ⟨k1, k2, k3, k4, k5, k6, k7, k8⟩ :=
        on_sensor_data_of_calibrating_keeps_windows a2d s m hcal
      rw [k1, k2, k3, k4, k5, k6, k7, k8]
      exact hP
  · intro s hP
    obtain ⟨k1, k2, k3, k4, k5, k6, k7, k8⟩ := tick_keeps_windows a2d s
    rw [k1, k2, k3, k4, k5, k6, k7, k8]
    exact hP

/-- Counterexample to "the filtered output is always within the window's
range": right after calibration a single `ay = 5` sample makes the `ay`
window hold `[5]` while the filtered value still holds its initial `0`,
below the window's minimum. -/
theorem filter_cold_start_escapes_window_range :
    ¬ listMin (run atan2deg0 coldStartEvents).buf_ay
        ≤ (run atan2deg0 coldStartEvents).f_ay := by
  norm_num [coldStartEvents, run, step, on_sensor_data, dpush, colMean,
    initState, window_size, List.replicate, zeroSample, ay5Sample, listMin,
    atan2deg0]

/-- C5 (amended): along every event sequence, once an axis's filter window
is full the filtered output lies within the `[min, max]` range of the
values currently held in that window (before the window first fills, the
output holds the last valid value, initially `0`, which may lie outside
the range). -/
theorem filter_output_within_window_range (a2d : ℚ → ℚ → ℚ) (evts : List Event) :
    WindowOk (run a2d evts).buf_ax (run a2d evts).f_ax ∧
    WindowOk (run a2d evts).buf_ay (run a2d evts).f_ay ∧
    WindowOk (run a2d evts).buf_az (run a2d evts).f_az ∧
    WindowOk (run a2d evts).buf_gy (run a2d evts).f_gy :=
  (filter_window_invariant a2d evts).2

/-- Witness for C5 (amended): after warming the `ay` window with six
`ay = 5` samples the filtered value `5` is inside the window's range. -/
theorem filter_output_within_window_range_witness :
    listMin (run atan2deg0 warmEvents).buf_ay ≤ (run atan2deg0 warmEvents).f_ay ∧
      (run atan2deg0 warmEvents).f_ay ≤ listMax (run atan2deg0 warmEvents).buf_ay :=
  (filter_output_within_window_range atan2deg0 warmEvents).2.1 (by
    norm_num [warmEvents, run, step, on_sensor_data, dpush, colMean, initState,
      window_size, List.replicate, zeroSample, ay5Sample, atan2deg0])

end MotionSolver
